import Mathlib

/-!
Verification of the flower-testbed federated-learning runner.

This file shallowly embeds the parts of the repository that the verified
properties are about:

* `runner/core/module_loader.py` — structural validation and dynamic loading
  of user-supplied source files (`ModuleLoader`);
* `runner/pytorch/simulation.py` — the orchestrator's module-resolution
  policy (`_load_modules`), its top-level `run` routine, and the
  strategy-wrapping callbacks (`_wrap_strategy_with_callbacks`);
* `runner/core/checkpoint_manager.py` — parameter/state-dict conversion and
  latest-checkpoint selection;
* `runner/pytorch/server.py` — sample-count-weighted metric aggregation.

Python dictionaries are modelled as association lists in insertion order,
Python floats as exact rationals, and fallible operations as `Option` or
`Except`.
-/

namespace FlowerTestbed

/-! ## ModuleLoader (`runner/core/module_loader.py`) -/

/-- The kind of a top-level declaration found by AST inspection:
`ast.FunctionDef`/`ast.AsyncFunctionDef`, `ast.ClassDef`, or an
`ast.Assign` to a plain name. -/
inductive DeclKind
  | func
  | cls
  | var
deriving DecidableEq, Repr

/-- A top-level declaration of a Python source file, as collected by
`ast.iter_child_nodes` in `_validate_structure`. -/
structure Decl where
  name : String
  kind : DeclKind
deriving DecidableEq, Repr

/-- The outcome of trying to read and `ast.parse` a source file:
the file may be unreadable, fail to parse (with a line number), or parse
to a list of top-level declarations. -/
inductive ParseResult
  | unreadable (err : String)
  | parseFailure (lineno : Nat) (msg : String)
  | parsed (decls : List Decl)
deriving DecidableEq, Repr

/-- Expected top-level exports for one module category
(one entry of `_EXPECTED_EXPORTS`). -/
structure ExpectedExports where
  functions : List String
  classes : List String
  vars : List String
deriving DecidableEq, Repr

/-- The `_EXPECTED_EXPORTS` table of `module_loader.py` (lines 17-35),
keyed by module name. -/
def EXPECTED_TABLE : List (String × ExpectedExports) :=
  [ ("user_model", ⟨["get_model"], ["Net", "Model"], []⟩),
    ("user_dataset", ⟨["load_data"], [], []⟩),
    ("user_algorithm", ⟨["get_strategy"], [], []⟩),
    ("user_config", ⟨["get_config"], [], ["CONFIG", "config"]⟩) ]

/-- Dictionary lookup `_EXPECTED_EXPORTS.get(module_name)`. -/
def EXPECTED_EXPORTS (module_name : String) : Option ExpectedExports :=
  (EXPECTED_TABLE.find? (fun p => p.1 == module_name)).map (·.2)

/-- Lexicographic comparison of strings by code point (how Python
compares strings). -/
def strLeChars : List Char → List Char → Bool
  | [], _ => true
  | _ :: _, [] => false
  | a :: as, b :: bs =>
      if a.toNat < b.toNat then true
      else if b.toNat < a.toNat then false
      else strLeChars as bs

/-- Insert a string into an ascending list (helper for `sortStrings`). -/
def insertStr (s : String) : List String → List String
  | [] => [s]
  | t :: ts => if strLeChars s.data t.data then s :: t :: ts else t :: insertStr s ts

/-- Sort a list of strings in ascending order (Python `sorted`). -/
def sortStrings : List String → List String
  | [] => []
  | s :: ss => insertStr s (sortStrings ss)

/-- The error message built by `_validate_structure` when a file defines
none of the expected exports (module_loader.py lines 107-111). -/
def missingExportsMsg (expected : ExpectedExports) : String :=
  "File does not define any of the expected exports: " ++
    String.intercalate ", "
      (sortStrings (expected.functions ++ expected.classes ++ expected.vars)) ++
    ". Please check your file and upload again."

/-- Names declared with a given kind among the collected declarations. -/
def declaredNames (decls : List Decl) (k : DeclKind) : List String :=
  (decls.filter (fun d => d.kind == k)).map (·.name)

/-- The matched exports: kind-respecting intersection of expected and
declared names (module_loader.py lines 98-102). -/
def foundExports (expected : ExpectedExports) (decls : List Decl) : List String :=
  expected.functions.filter (fun n => n ∈ declaredNames decls .func) ++
  expected.classes.filter (fun n => n ∈ declaredNames decls .cls) ++
  expected.vars.filter (fun n => n ∈ declaredNames decls .var)

/-- `ModuleLoader._validate_structure` (module_loader.py lines 56-111).
Takes the read/parse outcome of the file at `full_path` and the module
name; returns `(is_valid, error_message)`.  For a module name absent from
`_EXPECTED_EXPORTS` it returns success before the file is read, so the
result is independent of the `ParseResult` argument. -/
def validate_structure (parse : ParseResult) (module_name : String) : Bool × String :=
  match EXPECTED_EXPORTS module_name with
  | none => (true, "")
  | some expected =>
    match parse with
    | .unreadable e => (false, "Cannot read file: " ++ e)
    | .parseFailure lineno msg =>
        (false, "Syntax error in uploaded file (line " ++ Nat.repr lineno ++ "): " ++ msg)
    | .parsed decls =>
        if foundExports expected decls ≠ [] then (true, "")
        else (false, missingExportsMsg expected)

/-- An attribute of a loaded Python module: whether the object is
callable and whether it is a type (a class is both). -/
structure PyAttr where
  isCallable : Bool
  isType : Bool
deriving DecidableEq, Repr

/-- A loaded module: its attributes in definition order. -/
structure Module where
  attrs : List (String × PyAttr)
deriving DecidableEq, Repr

/-- `hasattr`/`getattr` combined: the attribute with the given name. -/
def getattrOpt (m : Module) (name : String) : Option PyAttr :=
  (m.attrs.find? (fun p => p.1 == name)).map (·.2)

/-- The attribute with the given name, provided it satisfies `p`
(the `hasattr(m, n) and p(getattr(m, n))` idiom).  The result carries the
attribute's name so that which object was returned is observable. -/
def attrIf (m : Module) (name : String) (p : PyAttr → Bool) : Option (String × PyAttr) :=
  match getattrOpt m name with
  | some a => if p a then some (name, a) else none
  | none => none

/-- `ModuleLoader.extract_model` (module_loader.py lines 163-193):
a callable `get_model`, else a `Net` type, else a `Model` type, else
`None`. -/
def extract_model (m? : Option Module) : Option (String × PyAttr) :=
  match m? with
  | none => none
  | some m =>
      match attrIf m "get_model" (·.isCallable) with
      | some f => some f
      | none =>
          match attrIf m "Net" (·.isType) with
          | some f => some f
          | none => attrIf m "Model" (·.isType)

/-- `ModuleLoader.extract_dataset_loader` (module_loader.py lines 195-214). -/
def extract_dataset_loader (m? : Option Module) : Option (String × PyAttr) :=
  match m? with
  | none => none
  | some m => attrIf m "load_data" (·.isCallable)

/-- `ModuleLoader.extract_strategy` (module_loader.py lines 216-235). -/
def extract_strategy (m? : Option Module) : Option (String × PyAttr) :=
  match m? with
  | none => none
  | some m => attrIf m "get_strategy" (·.isCallable)

/-- Outcome of the `try` block of `load_module` (copying the file into the
module cache, creating the import spec and executing the module): either a
loaded module, or any exception / failed spec creation, all of which are
caught and reported as `None`. -/
inductive ExecResult
  | ok (m : Module)
  | failed (err : String)
deriving DecidableEq, Repr

/-- A file present on disk, as observed by `load_module`: its read/parse
outcome and the outcome of executing it. -/
structure FileData where
  parse : ParseResult
  exec : ExecResult
deriving DecidableEq, Repr

/-- The filesystem seen through `self.project_root / file_path`:
`none` when the file does not exist. -/
abbrev FileSystem : Type := String → Option FileData

/-- `ModuleLoader.load_module` (module_loader.py lines 113-161).
Returns `none` (never raises) for an empty path, a missing file, a failed
structural validation, or any error while caching/executing the file. -/
def load_module (fs : FileSystem) (file_path : String) (module_name : String) :
    Option Module :=
  if file_path = "" then none
  else
    match fs file_path with
    | none => none
    | some fd =>
        if (validate_structure fd.parse module_name).1 = false then none
        else
          match fd.exec with
          | .failed _ => none
          | .ok m => some m

/-- Whether `needle` occurs at the start of `hay`. -/
def startsWithChars : List Char → List Char → Bool
  | [], _ => true
  | _ :: _, [] => false
  | a :: as, b :: bs => a = b && startsWithChars as bs

/-- Whether `needle` occurs contiguously anywhere in `hay`. -/
def occursIn (needle : List Char) : List Char → Bool
  | [] => startsWithChars needle []
  | c :: rest' =>
      startsWithChars needle (c :: rest') || occursIn needle rest'

/-- Whether string `needle` occurs as a substring of `hay` (used to state
that an error message mentions something). -/
def strContains (needle hay : String) : Bool :=
  occursIn needle.data hay.data

/-- Python `str.endswith` over code points (the library version of this
operation does not reduce definitionally, so it is modelled directly). -/
def endsWithChars (s suf : String) : Bool :=
  startsWithChars suf.data.reverse s.data.reverse

/-! ## Orchestrator module resolution (`simulation.py`, `_load_modules`) -/

/-- The experiment configuration fields consulted by `_load_modules`
(`self.config.get(...)`); `none` models both an absent key and a SQL
`NULL`. -/
structure SimConfig where
  model_path : Option String
  dataset_path : Option String
  algorithm_path : Option String
  config_path : Option String
deriving DecidableEq, Repr

/-- Python truthiness of an optional string (`if model_path:`). -/
def truthy : Option String → Bool
  | none => false
  | some s => !(s == "")

/-- The resolved model factory `self.model_fn`: a component extracted from
a user module, or the built-in default (`get_default_model`). -/
inductive ModelFn
  | user (f : String × PyAttr)
  | defaultModel
deriving DecidableEq, Repr

/-- The resolved dataset loader `self.load_data_fn`: user-supplied or the
built-in default (`load_default_data`). -/
inductive DataFn
  | user (f : String × PyAttr)
  | defaultDataset
deriving DecidableEq, Repr

/-- An opaque configuration dictionary (values are not interpreted by any
verified property). -/
abbrev PyDict : Type := List (String × String)

/-- The components resolved by `_load_modules`: model factory, dataset
loader, optional user strategy factory, and the merged custom config
(present only when a config path was configured). -/
structure LoadedModules where
  model_fn : ModelFn
  load_data_fn : DataFn
  strategy_fn : Option (String × PyAttr)
  custom_config : Option PyDict
deriving DecidableEq, Repr

/-- `ModuleLoader.extract_config` composed with `_load_config_file`
(module_loader.py lines 237-299): every failure path there (missing file,
JSON/YAML error, missing PyYAML, execution error) is caught and yields a
dictionary, so the whole resolution is a total function of the path; it is
embedded as an oracle since no verified property depends on its
internals. -/
abbrev ConfigOracle : Type := String → PyDict

/-- Right-biased dictionary merge, `{**a, **b}`. -/
def mergeDicts (a b : PyDict) : PyDict :=
  a.filter (fun p => (b.find? (fun q => q.1 == p.1)).isNone) ++ b

/-- The keys of `DEFAULT_CONFIG` (`pytorch/defaults/config.py`); the
values are opaque here. -/
def DEFAULT_CONFIG : PyDict :=
  [ ("batch_size", "32"), ("learning_rate", "0.01"), ("local_epochs", "1"),
    ("optimizer", "sgd"), ("momentum", "0.9"), ("num_classes", "10"),
    ("normalize_mean", "(0.4914, 0.4822, 0.4465)"),
    ("normalize_std", "(0.2470, 0.2435, 0.2616)"),
    ("client_fraction", "0.5"), ("min_fit_clients", "2"),
    ("min_evaluate_clients", "2") ]

/-- The model block of `_load_modules` (simulation.py lines 152-164):
`if model_path and model_path.endswith('.py'):` load, extract, raise on
either failure; the built-in default is used when `self.model_fn` is
still unset. -/
def resolve_model (fs : FileSystem) (cfg : SimConfig) : Except String ModelFn :=
  match cfg.model_path with
  | some p =>
      if !(p == "") && endsWithChars p ".py" then
        match load_module fs p "user_model" with
        | none => .error "Failed to load model module. Please check your file and upload again."
        | some m =>
            match extract_model (some m) with
            | none => .error "No valid model found. Expected get_model() function or Net/Model class. Please check your file and upload again."
            | some f => .ok (ModelFn.user f)
      else .ok ModelFn.defaultModel
  | none => .ok ModelFn.defaultModel

/-- The dataset block of `_load_modules` (simulation.py lines 166-178):
`if dataset_path:` load, extract, raise on either failure; otherwise the
built-in default. -/
def resolve_dataset (fs : FileSystem) (cfg : SimConfig) : Except String DataFn :=
  match cfg.dataset_path with
  | some p =>
      if !(p == "") then
        match load_module fs p "user_dataset" with
        | none => .error "Failed to load dataset module. Please check your file and upload again."
        | some m =>
            match extract_dataset_loader (some m) with
            | none => .error "No valid dataset loader found. Expected load_data() function. Please check your file and upload again."
            | some f => .ok (DataFn.user f)
      else .ok DataFn.defaultDataset
  | none => .ok DataFn.defaultDataset

/-- The strategy block of `_load_modules` (simulation.py lines 180-188):
`if algorithm_path:` load, extract, raise on either failure; no default
is assigned here (`self.strategy_fn` stays `None`). -/
def resolve_strategy (fs : FileSystem) (cfg : SimConfig) :
    Except String (Option (String × PyAttr)) :=
  match cfg.algorithm_path with
  | some p =>
      if !(p == "") then
        match load_module fs p "user_algorithm" with
        | none => .error "Failed to load algorithm module. Please check your file and upload again."
        | some m =>
            match extract_strategy (some m) with
            | none => .error "No valid strategy found. Expected get_strategy() function. Please check your file and upload again."
            | some f => .ok (some f)
      else .ok none
  | none => .ok none

/-- The config block of `_load_modules` (simulation.py lines 190-196):
`if config_path:` extract (which never raises) and merge over
`DEFAULT_CONFIG`. -/
def resolve_config (eco : ConfigOracle) (cfg : SimConfig) : Option PyDict :=
  match cfg.config_path with
  | some p => if !(p == "") then some (mergeDicts DEFAULT_CONFIG (eco p)) else none
  | none => none

/-- `SimulationOrchestrator._load_modules` (simulation.py lines 148-196).
Resolves each category in order (model, dataset, algorithm, config);
`Except.error` models the `RuntimeError`s raised there. -/
def load_modules (fs : FileSystem) (eco : ConfigOracle) (cfg : SimConfig) :
    Except String LoadedModules :=
  match resolve_model fs cfg with
  | .error e => .error e
  | .ok model_fn =>
      match resolve_dataset fs cfg with
      | .error e => .error e
      | .ok load_data_fn =>
          match resolve_strategy fs cfg with
          | .error e => .error e
          | .ok strategy_fn =>
              .ok ⟨model_fn, load_data_fn, strategy_fn, resolve_config eco cfg⟩

/-! ## Orchestrator top-level run (`simulation.py`, `run`) -/

/-- A Python exception as observed by the `except` clause of `run`:
its class name (`type(e).__name__`) and message (`str(e)`). -/
structure PyErr where
  kind : String
  msg : String
deriving DecidableEq, Repr

/-- The structured error message written on failure
(`f"{type(e).__name__}: {str(e)}"`). -/
def formatError (e : PyErr) : String := e.kind ++ ": " ++ e.msg

/-- The database columns of the experiment row that `run` touches, plus
the connection state. -/
structure DBState where
  connected : Bool
  status : String
  error_message : Option String
deriving DecidableEq, Repr

/-- `ExperimentManager.update_status` (experiment.py lines 63-91): raises
`RuntimeError` when not connected; the `failed` branch also writes the
error message. -/
def update_status (db : DBState) (status : String) (err : Option String) :
    Except PyErr DBState :=
  if !db.connected then .error ⟨"RuntimeError", "Not connected to database"⟩
  else if status = "failed" then .ok { db with status := status, error_message := err }
  else .ok { db with status := status }

/-- The outcomes of the successive stages invoked inside the `try` block
of `run` (each may raise an arbitrary exception). -/
structure RunEnv where
  connect : Except PyErr Unit
  load_config : Except PyErr Unit
  load_modules_step : Except PyErr Unit
  setup_device : Except PyErr Unit
  run_simulation : Except PyErr Unit
  save_final_results : Except PyErr Unit

/-- The body of the `try` block of `SimulationOrchestrator.run`
(simulation.py lines 108-128), threading the database state: connect,
load config, mark running, load modules, set up the device, run the
simulation, save final results, mark completed. -/
def runBody (env : RunEnv) (db0 : DBState) : DBState × Except PyErr Unit :=
  match env.connect with
  | .error e => (db0, .error e)
  | .ok () =>
    let db1 : DBState := { db0 with connected := true }
    match env.load_config with
    | .error e => (db1, .error e)
    | .ok () =>
      match update_status db1 "running" none with
      | .error e => (db1, .error e)
      | .ok db2 =>
        match env.load_modules_step with
        | .error e => (db2, .error e)
        | .ok () =>
          match env.setup_device with
          | .error e => (db2, .error e)
          | .ok () =>
            match env.run_simulation with
            | .error e => (db2, .error e)
            | .ok () =>
              match env.save_final_results with
              | .error e => (db2, .error e)
              | .ok () =>
                match update_status db2 "completed" none with
                | .error e => (db2, .error e)
                | .ok db3 => (db3, .ok ())

/-- `SimulationOrchestrator.run` (simulation.py lines 102-146): on any
exception from the body, writes status `failed` with the structured
message and re-raises the same exception (if that status write itself
raises, the new exception propagates instead, as in Python); the
`finally` block then closes the connection.  (The log-flush in the
`finally` block only writes the logs column and swallows its own errors;
it is omitted as no verified property mentions logs.) -/
def run (env : RunEnv) (db0 : DBState) : DBState × Except PyErr Unit :=
  let afterTry : DBState × Except PyErr Unit :=
    match runBody env db0 with
    | (db, .ok ()) => (db, .ok ())
    | (db, .error e) =>
        match update_status db "failed" (some (formatError e)) with
        | .ok db' => (db', .error e)
        | .error e2 => (db, .error e2)
  ({ afterTry.1 with connected := false }, afterTry.2)

/-! ## CheckpointManager parameter conversion (`checkpoint_manager.py`) -/

/-- A numeric array: only its shape matters to the verified properties
(`torch.tensor(v)` preserves it). -/
structure Arr where
  shape : List Nat
deriving DecidableEq, Repr

/-- A PyTorch model as seen through `model.state_dict()`: the parameter
names with their shapes, in insertion order. -/
structure TorchModel where
  state_keys : List (String × List Nat)
deriving DecidableEq, Repr

/-- The shape registered in the model's state dict for a parameter name. -/
def stateShape (model : TorchModel) (k : String) : Option (List Nat) :=
  (model.state_keys.find? (fun p => p.1 == k)).map (·.2)

/-- `model.load_state_dict(state_dict, strict=True)`: raises on a missing
key, an unexpected key, or a shape mismatch; otherwise succeeds. -/
def load_state_dict_strict (model : TorchModel) (sd : List (String × Arr)) :
    Except String Unit :=
  if _h : ∀ k ∈ model.state_keys.map Prod.fst, k ∈ sd.map Prod.fst then
    if _h2 : ∀ k ∈ sd.map Prod.fst, k ∈ model.state_keys.map Prod.fst then
      if _h3 : ∀ p ∈ sd, stateShape model p.1 = some p.2.shape then .ok ()
      else .error "size mismatch for parameter"
    else .error "Unexpected key(s) in state_dict"
  else .error "Missing key(s) in state_dict"

/-- `CheckpointManager.get_model_parameters` (checkpoint_manager.py lines
106-109): the state-dict values in insertion order. -/
def get_model_parameters (model : TorchModel) : List Arr :=
  model.state_keys.map (fun p => ⟨p.2⟩)

/-- `CheckpointManager.set_model_parameters` (checkpoint_manager.py lines
111-116): zips the current state-dict keys with the given arrays (`zip`
truncates to the shorter operand) and loads the result strictly. -/
def set_model_parameters (model : TorchModel) (parameters : List Arr) :
    Except String Unit :=
  load_state_dict_strict model (List.zip (model.state_keys.map Prod.fst) parameters)

/-- `CheckpointManager.parameters_to_state_dict` (checkpoint_manager.py
lines 118-122): zips the current state-dict keys with the given arrays;
performs no count or shape checking. -/
def parameters_to_state_dict (model : TorchModel) (parameters : List Arr) :
    List (String × Arr) :=
  List.zip (model.state_keys.map Prod.fst) parameters

/-! ## Strategy wrapping (`simulation.py`, `_wrap_strategy_with_callbacks`) -/

/-- A metrics dictionary as produced by the aggregation functions
(string keys, float values). -/
abbrev FlMetrics : Type := List (String × ℚ)

/-- Python `metrics.get(key)`. -/
def dget (m : FlMetrics) (k : String) : Option ℚ :=
  (m.find? (fun p => p.1 == k)).map (·.2)

/-- One row of the `metrics` table as written by
`ExperimentManager.save_round_metrics` (experiment.py lines 93-117):
the four scalar columns, each nullable. -/
structure RoundRecord where
  eval_loss : Option ℚ
  eval_accuracy : Option ℚ
  train_loss : Option ℚ
  train_accuracy : Option ℚ
deriving DecidableEq, Repr

/-- The mutable state of the `StrategyWrapper` inside
`_wrap_strategy_with_callbacks`, together with the persistence side
effects it triggers: saved checkpoint files, checkpoint rows, and round
metrics rows (each list in write order). -/
structure WrapperState where
  current_round : Nat
  last_fit_metrics : Option (Option ℚ × Option ℚ)
  checkpoints : List (Nat × List (String × Arr))
  checkpoint_rows : List (Nat × Option ℚ × Option ℚ)
  saved_rounds : List (Nat × RoundRecord)
deriving DecidableEq, Repr

/-- The fresh wrapper state (`_current_round = 0`, `_last_fit_metrics`
unset, nothing persisted). -/
def initialWrapperState : WrapperState :=
  ⟨0, none, [], [], []⟩

/-- `StrategyWrapper.aggregate_fit` (simulation.py lines 328-369) given
the base strategy's aggregation result: records `_current_round`, saves a
checkpoint and a checkpoint row when parameters are present, and caches
the round's training metrics when the metrics dictionary is non-empty.
`model` is the orchestrator's resolved model used for
`parameters_to_state_dict`. -/
def aggregate_fit (model : TorchModel) (st : WrapperState) (server_round : Nat)
    (aggregated : Option (Option (List Arr) × FlMetrics)) : WrapperState :=
  let st0 := { st with current_round := server_round }
  match aggregated with
  | none => st0
  | some (params?, metrics) =>
      let st1 :=
        match params? with
        | some ps =>
            { st0 with
              checkpoints :=
                st0.checkpoints ++ [(server_round, parameters_to_state_dict model ps)],
              checkpoint_rows :=
                st0.checkpoint_rows ++
                  [(server_round, dget metrics "train_accuracy", dget metrics "train_loss")] }
        | none => st0
      if metrics = [] then st1
      else
        { st1 with
          last_fit_metrics := some (dget metrics "train_loss", dget metrics "train_accuracy") }

/-- `StrategyWrapper.aggregate_evaluate` (simulation.py lines 371-403)
given the base strategy's aggregation result: merges the cached training
metrics with the evaluation loss/accuracy into one round record and
appends it to the persisted metrics rows.  `float(loss) if loss else
None` maps a `None` or zero loss to `NULL`. -/
def aggregate_evaluate (st : WrapperState) (server_round : Nat)
    (aggregated : Option (Option ℚ × FlMetrics)) : WrapperState :=
  match aggregated with
  | none => st
  | some (loss, metrics) =>
      let rec0 : RoundRecord :=
        { eval_loss := match loss with
            | some l => if l = 0 then none else some l
            | none => none,
          eval_accuracy := dget metrics "eval_accuracy",
          train_loss := match st.last_fit_metrics with
            | some c => c.1
            | none => none,
          train_accuracy := match st.last_fit_metrics with
            | some c => c.2
            | none => none }
      { st with saved_rounds := st.saved_rounds ++ [(server_round, rec0)] }

/-! ## Metric aggregation (`runner/pytorch/server.py`) -/

/-- A value of a client metrics dictionary: Flower scalars include
numbers, strings and bytes; the aggregation functions only fold the
numeric ones (`isinstance(value, (int, float))`). -/
inductive MetricValue
  | num (q : ℚ)
  | nonNum
deriving DecidableEq, Repr

/-- A client metrics dictionary. -/
abbrev ClientMetrics : Type := List (String × MetricValue)

/-- Python dictionary access `m.get(k)` on a client metrics dictionary. -/
def mlookup (m : ClientMetrics) (k : String) : Option MetricValue :=
  (m.find? (fun p => p.1 == k)).map (·.2)

/-- Lookup in the aggregation accumulator dictionary. -/
def alookup (d : List (String × ℚ)) (k : String) : Option ℚ :=
  (d.find? (fun p => p.1 == k)).map (·.2)

/-- The `if key not in aggregated: aggregated[key] = 0.0` followed by
`aggregated[key] += x` idiom on an insertion-ordered dictionary. -/
def addTo : List (String × ℚ) → String → ℚ → List (String × ℚ)
  | [], k, x => [(k, x)]
  | (k', y) :: rest, k, x =>
      if k' = k then (k', y + x) :: rest else (k', y) :: addTo rest k x

/-- One step of the inner aggregation loop: a numeric metric value adds
`value * weight` to its key, a non-numeric one is skipped
(`isinstance(value, (int, float))`). -/
def accStep (w : ℚ) (a : List (String × ℚ)) (kv : String × MetricValue) :
    List (String × ℚ) :=
  match kv.2 with
  | .num v => addTo a kv.1 (v * w)
  | .nonNum => a

/-- The inner loop of the aggregation functions for one client: fold the
client's numeric metrics into the accumulator with weight
`num_examples / total_examples`. -/
def accClient (total : ℚ) (agg : List (String × ℚ)) (p : Nat × ClientMetrics) :
    List (String × ℚ) :=
  p.2.foldl (accStep ((p.1 : ℚ) / total)) agg

/-- `fit_metrics_aggregation_fn` (server.py lines 11-41): empty input or
zero total sample count yields an empty dictionary; otherwise each
numeric key accumulates `value * num_examples / total_examples`. -/
def fit_metrics_aggregation_fn (metrics : List (Nat × ClientMetrics)) :
    List (String × ℚ) :=
  if metrics = [] then []
  else if (metrics.map (·.1)).sum = 0 then []
  else metrics.foldl (accClient ((((metrics.map (·.1)).sum : Nat)) : ℚ)) []

/-- `evaluate_metrics_aggregation_fn` (server.py lines 44-74): textually
the same computation as `fit_metrics_aggregation_fn`. -/
def evaluate_metrics_aggregation_fn (metrics : List (Nat × ClientMetrics)) :
    List (String × ℚ) :=
  if metrics = [] then []
  else if (metrics.map (·.1)).sum = 0 then []
  else metrics.foldl (accClient ((((metrics.map (·.1)).sum : Nat)) : ℚ)) []

/-! ## Latest-checkpoint selection (`checkpoint_manager.py`,
`load_latest_checkpoint`) -/

/-- A decimal digit character (how Python's string formatting renders one
digit of `f"round_{round_num}.pt"`). -/
def dch : Nat → Char
  | 0 => '0' | 1 => '1' | 2 => '2' | 3 => '3' | 4 => '4'
  | 5 => '5' | 6 => '6' | 7 => '7' | 8 => '8' | 9 => '9'
  | _ => '?'

/-- The decimal digit string of a natural number, most significant digit
first (Python `str(n)` for a non-negative int). -/
def decimalChars (n : Nat) : List Char :=
  if n = 0 then ['0'] else ((Nat.digits 10 n).reverse).map dch

/-- Parse a run of decimal digit characters as Python `int` does. -/
def parseNat (cs : List Char) : Nat :=
  cs.foldl (fun a c => 10 * a + (c.toNat - 48)) 0

/-- The checkpoint file name written by `save_checkpoint`
(`f"round_{round_num}.pt"`), as a character list. -/
def fileNameChars (n : Nat) : List Char :=
  'r' :: 'o' :: 'u' :: 'n' :: 'd' :: '_' :: (decimalChars n ++ ['.', 'p', 't'])

/-- The sort key `int(p.stem.split('_')[1])` used by
`load_latest_checkpoint`: the decimal value of the digit run between the
underscore and the extension dot. -/
def roundKey (cs : List Char) : Nat :=
  parseNat (((cs.dropWhile (fun c => c ≠ '_')).drop 1).takeWhile (fun c => c ≠ '.'))

/-- Comparison of checkpoint file names by their parsed round number
(`checkpoints.sort(key=lambda p: int(p.stem.split('_')[1]))`). -/
def keyLe (a b : List Char) : Prop := roundKey a ≤ roundKey b

instance : DecidableRel keyLe := fun a b => Nat.decLe (roundKey a) (roundKey b)

/-- `CheckpointManager.load_latest_checkpoint` (checkpoint_manager.py
lines 78-94) over the set of rounds whose files the glob `round_*.pt`
finds: `None` when no checkpoint exists, otherwise the last file after a
stable sort by parsed round number (the returned file name stands for the
checkpoint data loaded from it, which is one-to-one with the file). -/
def load_latest_checkpoint (rounds : List Nat) : Option (List Char) :=
  (List.insertionSort keyLe (rounds.map fileNameChars)).getLast?

instance : IsTotal (List Char) keyLe :=
  ⟨fun a b => Nat.le_total (roundKey a) (roundKey b)⟩

instance : IsTrans (List Char) keyLe :=
  ⟨fun _ _ _ => Nat.le_trans⟩

/-! ## Auxiliary observation helpers (used only to state properties) -/

/-- The numeric value a client reports for key `k` (zero when absent;
used only under hypotheses that make the key present). -/
def keyVal (k : String) (p : Nat × ClientMetrics) : ℚ :=
  match mlookup p.2 k with
  | some (.num v) => v
  | _ => 0

/-- Whether a model path is configured and triggers user-model loading
(`if model_path and model_path.endswith('.py'):`). -/
def modelPyConfigured (cfg : SimConfig) : Bool :=
  match cfg.model_path with
  | some p => !(p == "") && endsWithChars p ".py"
  | none => false

/-- Whether a dataset path is configured (`if dataset_path:`). -/
def datasetConfigured (cfg : SimConfig) : Bool :=
  truthy cfg.dataset_path

/-- Whether an algorithm path is configured (`if algorithm_path:`). -/
def algorithmConfigured (cfg : SimConfig) : Bool :=
  truthy cfg.algorithm_path

/-! ## Theorems -/

/-- C7: `extract_model` resolves in the fixed order: a callable
`get_model`, else a `Net` type, else a `Model` type, else `None`; on a
missing module it returns `None`. -/
theorem C7_extract_model_resolution_order :
    (∀ (m : Module) (a : PyAttr), getattrOpt m "get_model" = some a →
        a.isCallable = true → extract_model (some m) = some ("get_model", a)) ∧
    (∀ (m : Module) (a : PyAttr),
        attrIf m "get_model" (·.isCallable) = none →
        getattrOpt m "Net" = some a → a.isType = true →
        extract_model (some m) = some ("Net", a)) ∧
    (∀ (m : Module) (a : PyAttr),
        attrIf m "get_model" (·.isCallable) = none →
        attrIf m "Net" (·.isType) = none →
        getattrOpt m "Model" = some a → a.isType = true →
        extract_model (some m) = some ("Model", a)) ∧
    (∀ m : Module,
        attrIf m "get_model" (·.isCallable) = none →
        attrIf m "Net" (·.isType) = none →
        attrIf m "Model" (·.isType) = none →
        extract_model (some m) = none) ∧
    extract_model none = none := by
  refine ⟨?_, ?_, ?_, ?_, rfl⟩
  · intro m a ha hc
    simp [extract_model, attrIf, ha, hc]
  · intro m a h1 ha ht
    simp only [extract_model]
    rw [h1]
    simp [attrIf, ha, ht]
  · intro m a h1 h2 ha ht
    simp only [extract_model]
    rw [h1, h2]
    simp [attrIf, ha, ht]
  · intro m h1 h2 h3
    simp [extract_model, h1, h2, h3]

/-- C7 witness: a module defining both a callable `get_model` and a `Net`
class yields the `get_model` factory, never `Net`. -/
theorem C7_extract_model_witness :
    extract_model
        (some ⟨[("Net", ⟨true, true⟩), ("get_model", ⟨true, false⟩)]⟩) =
      some ("get_model", ⟨true, false⟩) :=
  C7_extract_model_resolution_order.1
    ⟨[("Net", ⟨true, true⟩), ("get_model", ⟨true, false⟩)]⟩ ⟨true, false⟩ rfl rfl

/-- C10: for a module name outside the `_EXPECTED_EXPORTS` table,
`_validate_structure` succeeds with an empty error for every possible
read/parse outcome of the file (so nothing is read or parsed), and
`load_module` on an existing file is decided solely by the outcome of
executing it. -/
theorem C10_unknown_category_skips_validation :
    ∀ module_name : String, EXPECTED_EXPORTS module_name = none →
      (∀ parse : ParseResult, validate_structure parse module_name = (true, "")) ∧
      (∀ (fs : FileSystem) (file_path : String) (fd : FileData),
        fs file_path = some fd → file_path ≠ "" →
        load_module fs file_path module_name =
          match fd.exec with
          | .ok m => some m
          | .failed _ => none) := by
  intro module_name h
  constructor
  · intro parse
    simp [validate_structure, h]
  · intro fs file_path fd hfd hne
    simp [load_module, hne, hfd, validate_structure, h]
    cases fd.exec <;> rfl

/-- C10 witness: a file that cannot even be read passes validation under
an unknown module name, and `load_module` returns the executed module. -/
theorem C10_unknown_category_witness :
    validate_structure (.unreadable "boom") "user_other" = (true, "") ∧
    load_module (fun _ => some ⟨.unreadable "boom", .ok ⟨[]⟩⟩) "f.py" "user_other" =
      some ⟨[]⟩ := by
  have h := C10_unknown_category_skips_validation "user_other" rfl
  exact ⟨h.1 (.unreadable "boom"),
    h.2 (fun _ => some ⟨.unreadable "boom", .ok ⟨[]⟩⟩) "f.py"
      ⟨.unreadable "boom", .ok ⟨[]⟩⟩ rfl (by decide)⟩

/-- C6: `load_module` is a total function (it never raises) that returns
`none` when the file does not exist, when structural validation fails, or
when executing the file fails, and returns a module only for a file that
exists, validates and executes successfully. -/
theorem C6_load_module_null_on_failure :
    ∀ (fs : FileSystem) (file_path module_name : String),
      (fs file_path = none → load_module fs file_path module_name = none) ∧
      (∀ fd : FileData, fs file_path = some fd →
        (validate_structure fd.parse module_name).1 = false →
        load_module fs file_path module_name = none) ∧
      (∀ (fd : FileData) (e : String), fs file_path = some fd →
        fd.exec = .failed e → load_module fs file_path module_name = none) ∧
      (∀ m : Module, load_module fs file_path module_name = some m →
        ∃ fd : FileData, fs file_path = some fd ∧
          (validate_structure fd.parse module_name).1 = true ∧ fd.exec = .ok m) := by
  intro fs file_path module_name
  refine ⟨?_, ?_, ?_, ?_⟩
  · intro h
    simp [load_module, h]
  · intro fd hfd hv
    simp [load_module, hfd, hv]
  · intro fd e hfd he
    by_cases hp : file_path = ""
    · simp [load_module, hp]
    · by_cases hv : (validate_structure fd.parse module_name).1 = false
      · simp [load_module, hp, hfd, hv]
      · simp [load_module, hp, hfd, hv, he]
  · intro m h
    by_cases hp : file_path = ""
    · simp [load_module, hp] at h
    · match hfd : fs file_path with
      | none => simp [load_module, hp, hfd] at h
      | some fd =>
          refine ⟨fd, rfl, ?_⟩
          by_cases hv : (validate_structure fd.parse module_name).1 = false
          · simp [load_module, hp, hfd, hv] at h
          · match he : fd.exec with
            | .failed e => simp [load_module, hp, hfd, hv, he] at h
            | .ok m' =>
                simp [load_module, hp, hfd, hv, he] at h
                subst h
                exact ⟨by simpa using hv, rfl⟩

/-- C6 witness: `load_module` on a non-existent path returns `none` and
does not raise. -/
theorem C6_load_module_witness :
    load_module (fun _ => none) "missing.py" "user_model" = none :=
  (C6_load_module_null_on_failure (fun _ => none) "missing.py" "user_model").1 rfl

/-- C5: for a known category, a parsed file defining none of the expected
exports fails validation with a message listing every expected export
name, and a file defining at least one expected export passes.  (That the
check inspects only the parse tree and never executes the file is
structural: `validate_structure` consumes a `ParseResult` and nothing
else.) -/
theorem C5_validate_structure_exports :
    ∀ (module_name : String) (expected : ExpectedExports),
      EXPECTED_EXPORTS module_name = some expected →
      ∀ decls : List Decl,
        (foundExports expected decls = [] →
          validate_structure (.parsed decls) module_name =
            (false, missingExportsMsg expected) ∧
          ∀ e ∈ expected.functions ++ expected.classes ++ expected.vars,
            strContains e (missingExportsMsg expected) = true) ∧
        (foundExports expected decls ≠ [] →
          validate_structure (.parsed decls) module_name = (true, "")) := by
  intro module_name expected h decls
  constructor
  · intro hf
    refine ⟨by simp [validate_structure, h, hf], ?_⟩
    have hmem : ∃ p ∈ EXPECTED_TABLE, p.2 = expected := by
      unfold EXPECTED_EXPORTS at h
      match hfind : EXPECTED_TABLE.find? (fun p => p.1 == module_name) with
      | none => rw [hfind] at h; simp at h
      | some p =>
          rw [hfind] at h
          simp at h
          exact ⟨p, List.mem_of_find?_eq_some hfind, h⟩
    obtain ⟨p, hp, hpe⟩ := hmem
    subst hpe
    simp [EXPECTED_TABLE] at hp
    rcases hp with h1 | h1 | h1 | h1 <;> rw [h1] <;> decide
  · intro hf
    simp [validate_structure, h, hf]

/-- C5 witness: a model-category file declaring only an unrelated
function fails validation, and the message mentions the expected export
`Net`. -/
theorem C5_validate_structure_witness :
    validate_structure (.parsed [⟨"foo", .func⟩]) "user_model" =
      (false, missingExportsMsg ⟨["get_model"], ["Net", "Model"], []⟩) ∧
    strContains "Net" (missingExportsMsg ⟨["get_model"], ["Net", "Model"], []⟩) = true := by
  have h := (C5_validate_structure_exports "user_model"
    ⟨["get_model"], ["Net", "Model"], []⟩ rfl [⟨"foo", .func⟩]).1 (by decide)
  exact ⟨h.1, h.2 "Net" (by decide)⟩

/-- Every error raised by the model block of `_load_modules` carries the
check-your-upload instruction. -/
theorem resolve_model_error_mentions_upload :
    ∀ (fs : FileSystem) (cfg : SimConfig) (e : String),
      resolve_model fs cfg = .error e →
      strContains "Please check your file and upload again." e = true := by
  intro fs cfg e h
  unfold resolve_model at h
  split at h
  · split at h
    · split at h
      · cases h; decide
      · split at h
        · cases h; decide
        · cases h
    · cases h
  · cases h

/-- Every error raised by the dataset block of `_load_modules` carries
the check-your-upload instruction. -/
theorem resolve_dataset_error_mentions_upload :
    ∀ (fs : FileSystem) (cfg : SimConfig) (e : String),
      resolve_dataset fs cfg = .error e →
      strContains "Please check your file and upload again." e = true := by
  intro fs cfg e h
  unfold resolve_dataset at h
  split at h
  · split at h
    · split at h
      · cases h; decide
      · split at h
        · cases h; decide
        · cases h
    · cases h
  · cases h

/-- Every error raised by the strategy block of `_load_modules` carries
the check-your-upload instruction. -/
theorem resolve_strategy_error_mentions_upload :
    ∀ (fs : FileSystem) (cfg : SimConfig) (e : String),
      resolve_strategy fs cfg = .error e →
      strContains "Please check your file and upload again." e = true := by
  intro fs cfg e h
  unfold resolve_strategy at h
  split at h
  · split at h
    · split at h
      · cases h; decide
      · split at h
        · cases h; decide
        · cases h
    · cases h
  · cases h


/-- When no `.py` model path is configured the default model is used. -/
theorem resolve_model_not_configured :
    ∀ (fs : FileSystem) (cfg : SimConfig), modelPyConfigured cfg = false →
      resolve_model fs cfg = .ok .defaultModel := by
  intro fs cfg h
  obtain ⟨mp, dp, ap, cp⟩ := cfg
  cases mp with
  | none => rfl
  | some p =>
      simp only [modelPyConfigured] at h
      simp only [resolve_model]
      rw [h]
      simp

/-- When a `.py` model path is configured, a successful resolution yields
a user-extracted component. -/
theorem resolve_model_configured_ok :
    ∀ (fs : FileSystem) (cfg : SimConfig) (mf : ModelFn),
      modelPyConfigured cfg = true → resolve_model fs cfg = .ok mf →
      ∃ f, mf = .user f := by
  intro fs cfg mf hc h
  obtain ⟨mp, dp, ap, cp⟩ := cfg
  cases mp with
  | none => simp [modelPyConfigured] at hc
  | some p =>
      simp only [modelPyConfigured] at hc
      simp only [resolve_model] at h
      rw [hc] at h
      simp only [if_true] at h
      match hl : load_module fs p "user_model" with
      | none => rw [hl] at h; cases h
      | some m =>
          rw [hl] at h
          dsimp only at h
          match he : extract_model (some m) with
          | none => rw [he] at h; cases h
          | some f =>
              rw [he] at h
              cases h
              exact ⟨f, rfl⟩

/-- When a `.py` model path is configured and loading or extraction
fails, the model block raises. -/
theorem resolve_model_configured_fails :
    ∀ (fs : FileSystem) (cfg : SimConfig) (p : String),
      cfg.model_path = some p → modelPyConfigured cfg = true →
      (load_module fs p "user_model" = none ∨
        ∃ m, load_module fs p "user_model" = some m ∧ extract_model (some m) = none) →
      ∃ e, resolve_model fs cfg = .error e := by
  intro fs cfg p hp hc hfail
  obtain ⟨mp, dp, ap, cp⟩ := cfg
  simp only at hp
  subst hp
  simp only [modelPyConfigured] at hc
  rcases hfail with hl | ⟨m, hm, he⟩
  · exact ⟨"Failed to load model module. Please check your file and upload again.",
      by simp only [resolve_model]; simp [hc, hl]⟩
  · exact ⟨"No valid model found. Expected get_model() function or Net/Model class. Please check your file and upload again.",
      by simp only [resolve_model]; simp [hc, hm, he]⟩

/-- When no dataset path is configured the default dataset is used. -/
theorem resolve_dataset_not_configured :
    ∀ (fs : FileSystem) (cfg : SimConfig), datasetConfigured cfg = false →
      resolve_dataset fs cfg = .ok .defaultDataset := by
  intro fs cfg h
  obtain ⟨mp, dp, ap, cp⟩ := cfg
  cases dp with
  | none => rfl
  | some p =>
      simp only [datasetConfigured, truthy] at h
      simp only [resolve_dataset]
      rw [h]
      simp

/-- When a dataset path is configured, a successful resolution yields a
user-extracted loader. -/
theorem resolve_dataset_configured_ok :
    ∀ (fs : FileSystem) (cfg : SimConfig) (df : DataFn),
      datasetConfigured cfg = true → resolve_dataset fs cfg = .ok df →
      ∃ f, df = .user f := by
  intro fs cfg df hc h
  obtain ⟨mp, dp, ap, cp⟩ := cfg
  cases dp with
  | none => simp [datasetConfigured, truthy] at hc
  | some p =>
      simp only [datasetConfigured, truthy] at hc
      simp only [resolve_dataset] at h
      rw [hc] at h
      simp only [if_true] at h
      match hl : load_module fs p "user_dataset" with
      | none => rw [hl] at h; cases h
      | some m =>
          rw [hl] at h
          dsimp only at h
          match he : extract_dataset_loader (some m) with
          | none => rw [he] at h; cases h
          | some f =>
              rw [he] at h
              cases h
              exact ⟨f, rfl⟩

/-- When a dataset path is configured and loading or extraction fails,
the dataset block raises. -/
theorem resolve_dataset_configured_fails :
    ∀ (fs : FileSystem) (cfg : SimConfig) (p : String),
      cfg.dataset_path = some p → datasetConfigured cfg = true →
      (load_module fs p "user_dataset" = none ∨
        ∃ m, load_module fs p "user_dataset" = some m ∧
          extract_dataset_loader (some m) = none) →
      ∃ e, resolve_dataset fs cfg = .error e := by
  intro fs cfg p hp hc hfail
  obtain ⟨mp, dp, ap, cp⟩ := cfg
  simp only at hp
  subst hp
  simp only [datasetConfigured, truthy] at hc
  rcases hfail with hl | ⟨m, hm, he⟩
  · exact ⟨"Failed to load dataset module. Please check your file and upload again.",
      by simp only [resolve_dataset]; simp [hc, hl]⟩
  · exact ⟨"No valid dataset loader found. Expected load_data() function. Please check your file and upload again.",
      by simp only [resolve_dataset]; simp [hc, hm, he]⟩

/-- When no algorithm path is configured no user strategy is resolved. -/
theorem resolve_strategy_not_configured :
    ∀ (fs : FileSystem) (cfg : SimConfig), algorithmConfigured cfg = false →
      resolve_strategy fs cfg = .ok none := by
  intro fs cfg h
  obtain ⟨mp, dp, ap, cp⟩ := cfg
  cases ap with
  | none => rfl
  | some p =>
      simp only [algorithmConfigured, truthy] at h
      simp only [resolve_strategy]
      rw [h]
      simp

/-- When an algorithm path is configured, a successful resolution yields
a user strategy factory. -/
theorem resolve_strategy_configured_ok :
    ∀ (fs : FileSystem) (cfg : SimConfig) (sf : Option (String × PyAttr)),
      algorithmConfigured cfg = true → resolve_strategy fs cfg = .ok sf →
      ∃ f, sf = some f := by
  intro fs cfg sf hc h
  obtain ⟨mp, dp, ap, cp⟩ := cfg
  cases ap with
  | none => simp [algorithmConfigured, truthy] at hc
  | some p =>
      simp only [algorithmConfigured, truthy] at hc
      simp only [resolve_strategy] at h
      rw [hc] at h
      simp only [if_true] at h
      match hl : load_module fs p "user_algorithm" with
      | none => rw [hl] at h; cases h
      | some m =>
          rw [hl] at h
          dsimp only at h
          match he : extract_strategy (some m) with
          | none => rw [he] at h; cases h
          | some f =>
              rw [he] at h
              cases h
              exact ⟨f, rfl⟩

/-- When an algorithm path is configured and loading or extraction fails,
the strategy block raises. -/
theorem resolve_strategy_configured_fails :
    ∀ (fs : FileSystem) (cfg : SimConfig) (p : String),
      cfg.algorithm_path = some p → algorithmConfigured cfg = true →
      (load_module fs p "user_algorithm" = none ∨
        ∃ m, load_module fs p "user_algorithm" = some m ∧
          extract_strategy (some m) = none) →
      ∃ e, resolve_strategy fs cfg = .error e := by
  intro fs cfg p hp hc hfail
  obtain ⟨mp, dp, ap, cp⟩ := cfg
  simp only at hp
  subst hp
  simp only [algorithmConfigured, truthy] at hc
  rcases hfail with hl | ⟨m, hm, he⟩
  · exact ⟨"Failed to load algorithm module. Please check your file and upload again.",
      by simp only [resolve_strategy]; simp [hc, hl]⟩
  · exact ⟨"No valid strategy found. Expected get_strategy() function. Please check your file and upload again.",
      by simp only [resolve_strategy]; simp [hc, hm, he]⟩

/-- A successful `_load_modules` run determines each resolver's result. -/
theorem load_modules_ok_inv :
    ∀ (fs : FileSystem) (eco : ConfigOracle) (cfg : SimConfig) (r : LoadedModules),
      load_modules fs eco cfg = .ok r →
      resolve_model fs cfg = .ok r.model_fn ∧
      resolve_dataset fs cfg = .ok r.load_data_fn ∧
      resolve_strategy fs cfg = .ok r.strategy_fn := by
  intro fs eco cfg r h
  unfold load_modules at h
  match hm : resolve_model fs cfg with
  | .error e => rw [hm] at h; cases h
  | .ok mf =>
      rw [hm] at h
      match hd : resolve_dataset fs cfg with
      | .error e => rw [hd] at h; cases h
      | .ok df =>
          rw [hd] at h
          match hs : resolve_strategy fs cfg with
          | .error e => rw [hs] at h; cases h
          | .ok sf =>
              rw [hs] at h
              cases h
              exact ⟨rfl, rfl, rfl⟩


/-- C1 (amended): module resolution per category as implemented by
`_load_modules` — for the dataset and algorithm categories a configured
path must load and yield a non-null extracted component, else the run
fails immediately with a message instructing the user to check their
upload; the same holds for the model category, but only when the
configured model path ends in `.py` — a configured model path without a
`.py` suffix is silently ignored and the built-in default model is
substituted.  Defaults are otherwise substituted exactly when the
category's path is not configured. -/
theorem C1_amended_module_resolution_policy :
    ∀ (fs : FileSystem) (eco : ConfigOracle) (cfg : SimConfig),
      (∀ r, load_modules fs eco cfg = .ok r →
        (modelPyConfigured cfg = true → ∃ f, r.model_fn = .user f) ∧
        (modelPyConfigured cfg = false → r.model_fn = .defaultModel) ∧
        (datasetConfigured cfg = true → ∃ f, r.load_data_fn = .user f) ∧
        (datasetConfigured cfg = false → r.load_data_fn = .defaultDataset) ∧
        (algorithmConfigured cfg = true → ∃ f, r.strategy_fn = some f) ∧
        (algorithmConfigured cfg = false → r.strategy_fn = none)) ∧
      (∀ p, cfg.model_path = some p → modelPyConfigured cfg = true →
        (load_module fs p "user_model" = none ∨
          ∃ m, load_module fs p "user_model" = some m ∧ extract_model (some m) = none) →
        ∃ msg, load_modules fs eco cfg = .error msg ∧
          strContains "Please check your file and upload again." msg = true) ∧
      (∀ p, cfg.dataset_path = some p → datasetConfigured cfg = true →
        (load_module fs p "user_dataset" = none ∨
          ∃ m, load_module fs p "user_dataset" = some m ∧
            extract_dataset_loader (some m) = none) →
        ∃ msg, load_modules fs eco cfg = .error msg ∧
          strContains "Please check your file and upload again." msg = true) ∧
      (∀ p, cfg.algorithm_path = some p → algorithmConfigured cfg = true →
        (load_module fs p "user_algorithm" = none ∨
          ∃ m, load_module fs p "user_algorithm" = some m ∧
            extract_strategy (some m) = none) →
        ∃ msg, load_modules fs eco cfg = .error msg ∧
          strContains "Please check your file and upload again." msg = true) := by
  intro fs eco cfg
  refine ⟨?_, ?_, ?_, ?_⟩
  · intro r hr
    obtain ⟨hm, hd, hs⟩ := load_modules_ok_inv fs eco cfg r hr
    refine ⟨?_, ?_, ?_, ?_, ?_, ?_⟩
    · intro hc
      exact resolve_model_configured_ok fs cfg r.model_fn hc hm
    · intro hc
      have := resolve_model_not_configured fs cfg hc
      rw [this] at hm
      exact (Except.ok.injEq _ _).mp hm.symm
    · intro hc
      exact resolve_dataset_configured_ok fs cfg r.load_data_fn hc hd
    · intro hc
      have := resolve_dataset_not_configured fs cfg hc
      rw [this] at hd
      exact (Except.ok.injEq _ _).mp hd.symm
    · intro hc
      exact resolve_strategy_configured_ok fs cfg r.strategy_fn hc hs
    · intro hc
      have := resolve_strategy_not_configured fs cfg hc
      rw [this] at hs
      exact (Except.ok.injEq _ _).mp hs.symm
  · intro p hp hc hfail
    obtain ⟨e, he⟩ := resolve_model_configured_fails fs cfg p hp hc hfail
    refine ⟨e, ?_, resolve_model_error_mentions_upload fs cfg e he⟩
    unfold load_modules
    rw [he]
  · intro p hp hc hfail
    obtain ⟨e, he⟩ := resolve_dataset_configured_fails fs cfg p hp hc hfail
    match hm : resolve_model fs cfg with
    | .error e0 =>
        refine ⟨e0, ?_, resolve_model_error_mentions_upload fs cfg e0 hm⟩
        unfold load_modules
        rw [hm]
    | .ok mf =>
        refine ⟨e, ?_, resolve_dataset_error_mentions_upload fs cfg e he⟩
        unfold load_modules
        rw [hm, he]
  · intro p hp hc hfail
    obtain ⟨e, he⟩ := resolve_strategy_configured_fails fs cfg p hp hc hfail
    match hm : resolve_model fs cfg with
    | .error e0 =>
        refine ⟨e0, ?_, resolve_model_error_mentions_upload fs cfg e0 hm⟩
        unfold load_modules
        rw [hm]
    | .ok mf =>
        match hd : resolve_dataset fs cfg with
        | .error e1 =>
            refine ⟨e1, ?_, resolve_dataset_error_mentions_upload fs cfg e1 hd⟩
            unfold load_modules
            rw [hm, hd]
        | .ok df =>
            refine ⟨e, ?_, resolve_strategy_error_mentions_upload fs cfg e he⟩
            unfold load_modules
            rw [hm, hd, he]

/-- C1 counterexample: a configured model path that does not end in
`.py` (here `model.txt`, which moreover does not exist, so it could never
resolve) is silently ignored — `_load_modules` succeeds and substitutes
the built-in default model even though a path was configured, refuting
"the built-in default is substituted only when no path is configured at
all". -/
theorem C1_counterexample_configured_path_falls_back :
    (SimConfig.model_path ⟨some "model.txt", none, none, none⟩ ≠ none) ∧
    load_module (fun _ => none) "model.txt" "user_model" = none ∧
    load_modules (fun _ => none) (fun _ => []) ⟨some "model.txt", none, none, none⟩ =
      .ok ⟨.defaultModel, .defaultDataset, none, none⟩ := by
  refine ⟨by simp, rfl, rfl⟩

/-- C1 witness: a configured dataset path whose file does not exist makes
the whole resolution fail with a check-your-upload message. -/
theorem C1_amended_witness :
    ∃ msg,
      load_modules (fun _ => none) (fun _ => []) ⟨none, some "data.py", none, none⟩ =
        .error msg ∧
      strContains "Please check your file and upload again." msg = true :=
  (C1_amended_module_resolution_policy (fun _ => none) (fun _ => [])
      ⟨none, some "data.py", none, none⟩).2.2.1
    "data.py" rfl rfl (Or.inl rfl)


/-- After a successful connection the database state threaded by the
`try` block stays connected. -/
theorem runBody_connected :
    ∀ (env : RunEnv) (db0 : DBState), env.connect = .ok () →
      (runBody env db0).1.connected = true := by
  intro env db0 hc
  obtain ⟨c, lc, lm, sd, rs, sf⟩ := env
  simp only at hc
  subst hc
  unfold runBody
  cases lc with
  | error e => rfl
  | ok u =>
      cases u
      cases lm with
      | error e => simp [update_status]
      | ok u =>
          cases u
          cases sd with
          | error e => simp [update_status]
          | ok u =>
              cases u
              cases rs with
              | error e => simp [update_status]
              | ok u =>
                  cases u
                  cases sf with
                  | error e => simp [update_status]
                  | ok u =>
                      cases u
                      simp [update_status]

/-- C2: once the database connection is established, every error raised
by any later stage of `run` is recorded — the experiment status is set to
`failed` with the structured message `{errorKind}: {message}` — and the
very same error is re-raised to the caller; an error-free body yields an
error-free run (nothing is spuriously raised or swallowed). -/
theorem C2_failure_recorded_and_reraised :
    ∀ (env : RunEnv) (db0 : DBState), env.connect = .ok () →
      ((runBody env db0).2 = .ok () → (run env db0).2 = .ok ()) ∧
      (∀ e, (runBody env db0).2 = .error e →
        (run env db0).2 = .error e ∧
        (run env db0).1.status = "failed" ∧
        (run env db0).1.error_message = some (formatError e)) := by
  intro env db0 hc
  have hconn := runBody_connected env db0 hc
  constructor
  · intro h
    unfold run
    match hrb : runBody env db0 with
    | (db, out) =>
        rw [hrb] at h
        simp only at h
        subst h
        rfl
  · intro e h
    unfold run
    match hrb : runBody env db0 with
    | (db, out) =>
        rw [hrb] at h hconn
        simp only at h hconn
        subst h
        simp [update_status, hconn]

/-- C2 witness: a simulation-stage error is written as
`failed` / `ValueError: boom` and re-raised. -/
theorem C2_failure_witness :
    (run ⟨.ok (), .ok (), .ok (), .ok (), .error ⟨"ValueError", "boom"⟩, .ok ()⟩
        ⟨false, "pending", none⟩).2 = .error ⟨"ValueError", "boom"⟩ ∧
    (run ⟨.ok (), .ok (), .ok (), .ok (), .error ⟨"ValueError", "boom"⟩, .ok ()⟩
        ⟨false, "pending", none⟩).1.status = "failed" ∧
    (run ⟨.ok (), .ok (), .ok (), .ok (), .error ⟨"ValueError", "boom"⟩, .ok ()⟩
        ⟨false, "pending", none⟩).1.error_message = some "ValueError: boom" := by
  have h := (C2_failure_recorded_and_reraised
    ⟨.ok (), .ok (), .ok (), .ok (), .error ⟨"ValueError", "boom"⟩, .ok ()⟩
    ⟨false, "pending", none⟩ rfl).2 ⟨"ValueError", "boom"⟩ rfl
  exact ⟨h.1, h.2.1, by rw [h.2.2]; rfl⟩


/-- C3 counterexample: with a zero aggregated evaluation loss the
evaluate callback (`float(loss) if loss else None`, simulation.py line
380) persists the `eval_loss` field as `NULL`, so the single round-3
record does not contain all four fields even though the fit callback
produced both train metrics and the evaluate callback produced an eval
loss (0.0) and an eval accuracy. -/
theorem C3_counterexample_zero_eval_loss :
    (aggregate_evaluate
        (aggregate_fit ⟨[]⟩ initialWrapperState 3
          (some (none, [("train_loss", 6/5), ("train_accuracy", 2/5)])))
        3 (some (some 0, [("eval_accuracy", 3/5)]))).saved_rounds =
      [(3, ⟨none, some (3/5), some (6/5), some (2/5)⟩)] := by
  have htl : dget [("train_loss", (6 : ℚ)/5), ("train_accuracy", 2/5)] "train_loss" =
      some (6/5) := rfl
  have hta : dget [("train_loss", (6 : ℚ)/5), ("train_accuracy", 2/5)] "train_accuracy" =
      some (2/5) := rfl
  have hea : dget [("eval_accuracy", (3 : ℚ)/5)] "eval_accuracy" = some (3/5) := rfl
  have hfm : ([("train_loss", (6 : ℚ)/5), ("train_accuracy", 2/5)] : FlMetrics) ≠ [] := by
    simp
  unfold aggregate_fit aggregate_evaluate
  simp [initialWrapperState, hfm, htl, hta, hea]

/-- C3 (amended): when the fit-aggregation callback fires for round `k`
with training metrics containing `train_loss` and `train_accuracy`, and
the evaluate-aggregation callback then fires for round `k` with an
aggregated loss and metrics containing `eval_accuracy`, exactly one
round-`k` metrics record is appended to the persisted rows; it carries
`train_loss`, `train_accuracy` and `eval_accuracy`, and its `eval_loss`
field carries the loss exactly when the loss is non-zero — a zero
aggregated loss is persisted as `NULL`. -/
theorem C3_amended_round_metrics_merge :
    ∀ (model : TorchModel) (st : WrapperState) (k : Nat)
      (params? : Option (List Arr)) (fm : FlMetrics) (l : ℚ) (em : FlMetrics)
      (tl ta ea : ℚ),
      dget fm "train_loss" = some tl →
      dget fm "train_accuracy" = some ta →
      fm ≠ [] →
      dget em "eval_accuracy" = some ea →
      (aggregate_evaluate (aggregate_fit model st k (some (params?, fm))) k
          (some (some l, em))).saved_rounds =
        st.saved_rounds ++
          [(k, ⟨if l = 0 then none else some l, some ea, some tl, some ta⟩)] := by
  intro model st k params? fm l em tl ta ea htl hta hfm hea
  unfold aggregate_fit aggregate_evaluate
  cases params? <;> simp [hfm, htl, hta, hea]

/-- C3 witness: the spec's scenario — round 3, fit metrics
`{train_loss: 1.2, train_accuracy: 0.4}`, evaluate result
`(0.9, {eval_accuracy: 0.6})` — persists one round-3 record with all four
fields. -/
theorem C3_round_metrics_witness :
    (aggregate_evaluate
        (aggregate_fit ⟨[]⟩ initialWrapperState 3
          (some (none, [("train_loss", 6/5), ("train_accuracy", 2/5)])))
        3 (some (some (9/10), [("eval_accuracy", 3/5)]))).saved_rounds =
      [(3, ⟨some (9/10), some (3/5), some (6/5), some (2/5)⟩)] := by
  have h := C3_amended_round_metrics_merge ⟨[]⟩ initialWrapperState 3 none
    [("train_loss", 6/5), ("train_accuracy", 2/5)] (9/10)
    [("eval_accuracy", 3/5)] (6/5) (2/5) (3/5)
    (by rfl) (by rfl) (by simp) (by rfl)
  rw [h]
  norm_num [initialWrapperState]

/-- The keys of a zipped dictionary are the key list truncated to the
value count (Python `zip` truncates to the shorter operand). -/
theorem zip_map_fst_take :
    ∀ {α β : Type} (l1 : List α) (l2 : List β),
      (List.zip l1 l2).map Prod.fst = l1.take l2.length := by
  intro α β l1
  induction l1 with
  | nil => intro l2; simp
  | cons a tl ih =>
      intro l2
      cases l2 with
      | nil => simp
      | cons b tb => simp [ih tb]

/-- With duplicate-free keys, `find?` at a positional key returns that
position's entry. -/
theorem find_at :
    ∀ (sk : List (String × List Nat)), (sk.map Prod.fst).Nodup →
      ∀ (i : Nat) (h : i < sk.length),
        sk.find? (fun p => p.1 == (sk.get ⟨i, h⟩).1) = some (sk.get ⟨i, h⟩) := by
  intro sk
  induction sk with
  | nil => intro _ i h; simp at h
  | cons a tl ih =>
      intro hnd i h
      simp only [List.map_cons, List.nodup_cons] at hnd
      obtain ⟨hna, hntl⟩ := hnd
      cases i with
      | zero => exact List.find?_cons_of_pos _ (by simp)
      | succ j =>
          have hj : j < tl.length := by simpa using h
          have hx : ((a :: tl).get ⟨j + 1, h⟩) = tl.get ⟨j, hj⟩ := rfl
          rw [hx]
          have hmem : (tl.get ⟨j, hj⟩).1 ∈ tl.map Prod.fst :=
            List.mem_map.mpr ⟨tl.get ⟨j, hj⟩, List.get_mem tl j hj, rfl⟩
          have hba : (a.1 == (tl.get ⟨j, hj⟩).1) = false := by
            simp only [beq_eq_false_iff_ne]
            intro hEq
            exact hna (hEq ▸ hmem)
          simp only [List.find?]
          rw [hba]
          exact ih hntl j hj

/-- With distinct parameter names, the state dict maps a positional key
to that position's shape. -/
theorem stateShape_get :
    ∀ (model : TorchModel), (model.state_keys.map Prod.fst).Nodup →
      ∀ (i : Nat) (h : i < model.state_keys.length),
        stateShape model ((model.state_keys.get ⟨i, h⟩).1) =
          some ((model.state_keys.get ⟨i, h⟩).2) := by
  intro model hnd i h
  unfold stateShape
  rw [find_at model.state_keys hnd i h]
  rfl

/-- In a duplicate-free list, an element does not occur before its own
position. -/
theorem nodup_get_not_mem_take :
    ∀ {α : Type} (l : List α), l.Nodup →
      ∀ (i : Nat) (h : i < l.length), l.get ⟨i, h⟩ ∉ l.take i := by
  intro α l hnd i h hmem
  obtain ⟨⟨j, hj⟩, hget⟩ := List.mem_iff_get.mp hmem
  have hlen : (l.take i).length ≤ i := by
    simp [List.length_take]
  have hlen2 : (l.take i).length ≤ l.length := by
    simp [List.length_take]
  have hj2 : j < l.length := lt_of_lt_of_le hj hlen2
  have hji : j < i := lt_of_lt_of_le hj hlen
  have hgets : l.get ⟨j, hj2⟩ = l.get ⟨i, h⟩ := by
    rw [← hget]
    simp [List.get_eq_getElem, List.getElem_take]
  have hinj := List.nodup_iff_injective_get.mp hnd hgets
  simp only [Fin.mk.injEq] at hinj
  omega

/-- C4 counterexample: `parameters_to_state_dict` on a two-parameter
model and a single array silently returns a one-entry partial mapping —
the count mismatch is not a fatal error for that operation (its type
cannot even raise). -/
theorem C4_counterexample_silent_partial_mapping :
    parameters_to_state_dict ⟨[("w", [2]), ("b", [1])]⟩ [⟨[2]⟩] = [("w", ⟨[2]⟩)] ∧
    (TorchModel.state_keys ⟨[("w", [2]), ("b", [1])]⟩).length = 2 :=
  ⟨rfl, rfl⟩

/-- C4 (amended): both helpers zip the given arrays against the model's
current parameter names in insertion order.  `set_model_parameters` is
fatal when the sequence is shorter than the parameter list or when a
zipped array's shape mismatches, and succeeds — silently ignoring surplus
arrays — when every parameter receives an array of the right shape;
`parameters_to_state_dict` performs no checking at all and silently
truncates to the shorter operand. -/
theorem C4_amended_conversion_helpers :
    ∀ (model : TorchModel) (params : List Arr),
      (model.state_keys.map Prod.fst).Nodup →
      (parameters_to_state_dict model params =
          List.zip (model.state_keys.map Prod.fst) params ∧
        (parameters_to_state_dict model params).length =
          min model.state_keys.length params.length) ∧
      (params.length < model.state_keys.length →
        ∃ e, set_model_parameters model params = .error e) ∧
      ((∃ i, ∃ hm : i < model.state_keys.length, ∃ hp : i < params.length,
          (params.get ⟨i, hp⟩).shape ≠ (model.state_keys.get ⟨i, hm⟩).2) →
        ∃ e, set_model_parameters model params = .error e) ∧
      (model.state_keys.length ≤ params.length →
        (∀ (i : Nat) (hm : i < model.state_keys.length) (hp : i < params.length),
          (params.get ⟨i, hp⟩).shape = (model.state_keys.get ⟨i, hm⟩).2) →
        set_model_parameters model params = .ok ()) := by
  intro model params hnd
  refine ⟨⟨rfl, ?_⟩, ?_, ?_, ?_⟩
  · simp [parameters_to_state_dict, List.length_zip]
  · intro hlt
    refine ⟨"Missing key(s) in state_dict", ?_⟩
    unfold set_model_parameters load_state_dict_strict
    rw [dif_neg]
    intro hall
    have hleft : params.length < (model.state_keys.map Prod.fst).length := by
      simpa using hlt
    have hk := hall ((model.state_keys.map Prod.fst).get ⟨params.length, hleft⟩)
      (List.get_mem _ params.length hleft)
    rw [zip_map_fst_take] at hk
    exact nodup_get_not_mem_take _ hnd params.length hleft hk
  · intro hmis
    obtain ⟨i, hm, hp, hne⟩ := hmis
    unfold set_model_parameters load_state_dict_strict
    by_cases h1 : ∀ k ∈ model.state_keys.map Prod.fst,
        k ∈ ((model.state_keys.map Prod.fst).zip params).map Prod.fst
    · by_cases h2 : ∀ k ∈ ((model.state_keys.map Prod.fst).zip params).map Prod.fst,
          k ∈ model.state_keys.map Prod.fst
      · refine ⟨"size mismatch for parameter", ?_⟩
        rw [dif_pos h1, dif_pos h2, dif_neg]
        intro hall
        have hmm : i < (model.state_keys.map Prod.fst).length := by simpa using hm
        have hzi : i < ((model.state_keys.map Prod.fst).zip params).length := by
          rw [List.length_zip]
          exact lt_min hmm hp
        have hpm := hall (((model.state_keys.map Prod.fst).zip params).get ⟨i, hzi⟩)
          (List.get_mem _ i hzi)
        have hpair : ((model.state_keys.map Prod.fst).zip params).get ⟨i, hzi⟩ =
            ((model.state_keys.get ⟨i, hm⟩).1, params.get ⟨i, hp⟩) := by
          simp [List.get_eq_getElem, List.getElem_zip]
        rw [hpair] at hpm
        rw [stateShape_get model hnd i hm] at hpm
        exact hne (Option.some.inj hpm).symm
      · exact ⟨"Unexpected key(s) in state_dict", by rw [dif_pos h1, dif_neg h2]⟩
    · exact ⟨"Missing key(s) in state_dict", by rw [dif_neg h1]⟩
  · intro hge hall
    unfold set_model_parameters load_state_dict_strict
    have hfst : ((model.state_keys.map Prod.fst).zip params).map Prod.fst =
        model.state_keys.map Prod.fst := by
      rw [zip_map_fst_take]
      apply List.take_of_length_le
      simpa using hge
    have h1 : ∀ k ∈ model.state_keys.map Prod.fst,
        k ∈ ((model.state_keys.map Prod.fst).zip params).map Prod.fst := by
      rw [hfst]
      exact fun k hk => hk
    have h2 : ∀ k ∈ ((model.state_keys.map Prod.fst).zip params).map Prod.fst,
        k ∈ model.state_keys.map Prod.fst := by
      rw [hfst]
      exact fun k hk => hk
    have h3 : ∀ p ∈ (model.state_keys.map Prod.fst).zip params,
        stateShape model p.1 = some p.2.shape := by
      intro p hpmem
      obtain ⟨⟨j, hj⟩, hget⟩ := List.mem_iff_get.mp hpmem
      have hjm : j < model.state_keys.length := by
        rw [List.length_zip] at hj
        have := lt_min_iff.mp hj
        simpa using this.1
      have hjp : j < params.length := by
        rw [List.length_zip] at hj
        exact (lt_min_iff.mp hj).2
      have hpair : ((model.state_keys.map Prod.fst).zip params).get ⟨j, hj⟩ =
          ((model.state_keys.get ⟨j, hjm⟩).1, params.get ⟨j, hjp⟩) := by
        simp [List.get_eq_getElem, List.getElem_zip]
      rw [← hget, hpair]
      rw [stateShape_get model hnd j hjm]
      rw [hall j hjm hjp]
    rw [dif_pos h1, dif_pos h2, dif_pos h3]

/-- C4 witness: on a two-parameter model, one array is a count mismatch
and `set_model_parameters` raises. -/
theorem C4_amended_witness :
    ∃ e, set_model_parameters ⟨[("w", [2]), ("b", [1])]⟩ [⟨[2]⟩] = .error e :=
  (C4_amended_conversion_helpers ⟨[("w", [2]), ("b", [1])]⟩ [⟨[2]⟩]
    (by decide)).2.1 (by decide)


/-- Adding to a key makes its accumulator entry grow by the added value
(absent keys start at zero). -/
theorem alookup_addTo_self :
    ∀ (d : List (String × ℚ)) (k : String) (x : ℚ),
      alookup (addTo d k x) k = some ((alookup d k).getD 0 + x) := by
  intro d k x
  induction d with
  | nil => simp [addTo, alookup, List.find?]
  | cons a tl ih =>
      by_cases hk : a.1 = k
      · simp [addTo, hk, alookup, List.find?]
      · have hba : (a.1 == k) = false := beq_eq_false_iff_ne.mpr hk
        simp only [addTo, hk, if_false]
        simpa [alookup, List.find?, hba] using ih

/-- Adding to one key leaves the lookup of another unchanged. -/
theorem alookup_addTo_ne :
    ∀ (d : List (String × ℚ)) (k k' : String) (x : ℚ), k' ≠ k →
      alookup (addTo d k' x) k = alookup d k := by
  intro d k k' x hne
  induction d with
  | nil =>
      have hba : (k' == k) = false := beq_eq_false_iff_ne.mpr hne
      simp [addTo, alookup, List.find?, hba]
  | cons a tl ih =>
      by_cases hk : a.1 = k'
      · subst hk
        have hba : (a.1 == k) = false := beq_eq_false_iff_ne.mpr hne
        simp [addTo, alookup, List.find?, hba]
      · have hba : (a.1 == k') = false := beq_eq_false_iff_ne.mpr hk
        simp only [addTo, hk, if_false]
        by_cases hak : a.1 = k
        · simp [alookup, List.find?, hak]
        · have hbak : (a.1 == k) = false := beq_eq_false_iff_ne.mpr hak
          simpa [alookup, List.find?, hbak] using ih

/-- Folding a client whose metrics never mention `k` does not change the
accumulator entry for `k`. -/
theorem clientFold_no_key :
    ∀ (items : ClientMetrics) (k : String), k ∉ items.map Prod.fst →
      ∀ (agg : List (String × ℚ)) (w : ℚ),
        alookup (items.foldl (accStep w) agg) k = alookup agg k := by
  intro items
  induction items with
  | nil => intro k _ agg w; rfl
  | cons kv tl ih =>
      intro k hk agg w
      simp only [List.map_cons, List.mem_cons, not_or] at hk
      obtain ⟨hk1, hk2⟩ := hk
      simp only [List.foldl_cons]
      rw [ih k hk2]
      cases hv : kv.2 with
      | num v =>
          simp only [accStep, hv]
          exact alookup_addTo_ne agg k kv.1 (v * w) (fun h => hk1 h.symm)
      | nonNum => simp [accStep, hv]

/-- Folding one client whose (duplicate-free) metrics map `k` to the
numeric value `v` adds exactly `v * w` to the accumulator entry for
`k`. -/
theorem clientFold_key :
    ∀ (items : ClientMetrics), (items.map Prod.fst).Nodup →
      ∀ (k : String) (v : ℚ), mlookup items k = some (.num v) →
      ∀ (agg : List (String × ℚ)) (w : ℚ),
        alookup (items.foldl (accStep w) agg) k =
          some ((alookup agg k).getD 0 + v * w) := by
  intro items
  induction items with
  | nil => intro _ k v hv; simp [mlookup, List.find?] at hv
  | cons kv tl ih =>
      intro hnd k v hv agg w
      simp only [List.map_cons, List.nodup_cons] at hnd
      obtain ⟨hna, hntl⟩ := hnd
      by_cases hk : kv.1 = k
      · have hba : (kv.1 == k) = true := beq_iff_eq.mpr hk
        have hkv : kv.2 = .num v := by
          simp only [mlookup, List.find?, hba] at hv
          simpa using hv
        simp only [List.foldl_cons, accStep, hkv]
        rw [hk]
        rw [clientFold_no_key tl k (hk ▸ hna) _ w]
        exact alookup_addTo_self agg k (v * w)
      · have hba : (kv.1 == k) = false := beq_eq_false_iff_ne.mpr hk
        have hvtl : mlookup tl k = some (.num v) := by
          simpa [mlookup, List.find?, hba] using hv
        simp only [List.foldl_cons]
        have hagg : alookup (accStep w agg kv) k = alookup agg k := by
          cases hv2 : kv.2 with
          | num u =>
              simp only [accStep, hv2]
              exact alookup_addTo_ne agg k kv.1 (u * w) hk
          | nonNum => simp [accStep, hv2]
        rw [ih hntl k v hvtl (accStep w agg kv) w, hagg]

/-- Folding a list of clients that all report `k` adds the weighted
contributions of each to an entry already present. -/
theorem outerFold_lookup :
    ∀ (T : ℚ) (k : String) (ms : List (Nat × ClientMetrics)),
      (∀ p ∈ ms, (p.2.map Prod.fst).Nodup ∧ ∃ v, mlookup p.2 k = some (.num v)) →
      ∀ (agg : List (String × ℚ)) (v0 : ℚ), alookup agg k = some v0 →
        alookup (ms.foldl (accClient T) agg) k =
          some (v0 + (ms.map (fun p => keyVal k p * ((p.1 : ℚ) / T))).sum) := by
  intro T k ms
  induction ms with
  | nil => intro _ agg v0 h0; simpa using h0
  | cons p tl ih =>
      intro hall agg v0 h0
      obtain ⟨hnd, v, hv⟩ := hall p (List.mem_cons_self p tl)
      have hkv : keyVal k p = v := by
        simp [keyVal, hv]
      simp only [List.foldl_cons]
      have h1 : alookup (accClient T agg p) k = some (v0 + v * ((p.1 : ℚ) / T)) := by
        unfold accClient
        rw [clientFold_key p.2 hnd k v hv agg ((p.1 : ℚ) / T), h0]
        rfl
      have h2 := ih (fun q hq => hall q (List.mem_cons_of_mem p hq))
        (accClient T agg p) (v0 + v * ((p.1 : ℚ) / T)) h1
      rw [h2, ← hkv]
      simp only [List.map_cons, List.sum_cons]
      congr 1
      ring

/-- Dividing each weighted term by the total is the same as dividing the
weighted sum once. -/
theorem weighted_sum_div :
    ∀ (T : ℚ) (k : String) (l : List (Nat × ClientMetrics)),
      (l.map (fun p => keyVal k p * ((p.1 : ℚ) / T))).sum =
        (l.map (fun p => (p.1 : ℚ) * keyVal k p)).sum / T := by
  intro T k l
  induction l with
  | nil => simp
  | cons p tl ih =>
      simp only [List.map_cons, List.sum_cons, ih]
      rw [add_div]
      congr 1
      rw [mul_div_assoc]
      ring

/-- C8: the two metric-aggregation functions compute the same thing; an
empty client list or a zero total sample count yields an empty mapping;
and for every key that every client reports as a numeric value, the
aggregate is the sample-count-weighted mean `Σ nᵢ·vᵢ / Σ nᵢ`.  (Numeric
values are modelled as exact rationals.) -/
theorem C8_weighted_metric_aggregation :
    (∀ ms, evaluate_metrics_aggregation_fn ms = fit_metrics_aggregation_fn ms) ∧
    fit_metrics_aggregation_fn [] = [] ∧
    (∀ ms, (ms.map (·.1)).sum = 0 → fit_metrics_aggregation_fn ms = []) ∧
    (∀ (ms : List (Nat × ClientMetrics)) (k : String),
      ms ≠ [] → (ms.map (·.1)).sum ≠ 0 →
      (∀ p ∈ ms, (p.2.map Prod.fst).Nodup ∧ ∃ v, mlookup p.2 k = some (.num v)) →
      alookup (fit_metrics_aggregation_fn ms) k =
        some ((ms.map (fun p => (p.1 : ℚ) * keyVal k p)).sum /
          (((ms.map (·.1)).sum : Nat) : ℚ))) := by
  refine ⟨fun ms => rfl, rfl, ?_, ?_⟩
  · intro ms htot
    unfold fit_metrics_aggregation_fn
    by_cases hms : ms = []
    · simp [hms]
    · simp [hms, htot]
  · intro ms k hms htot hall
    cases ms with
    | nil => exact absurd rfl hms
    | cons p tl =>
        obtain ⟨hnd, v, hv⟩ := hall p (List.mem_cons_self p tl)
        have hkv : keyVal k p = v := by simp [keyVal, hv]
        unfold fit_metrics_aggregation_fn
        rw [if_neg hms, if_neg htot]
        simp only [List.foldl_cons]
        have h1 : alookup
            (accClient (((((p :: tl).map (·.1)).sum : Nat)) : ℚ) [] p) k =
            some (0 + v * ((p.1 : ℚ) / (((((p :: tl).map (·.1)).sum : Nat)) : ℚ))) := by
          unfold accClient
          rw [clientFold_key p.2 hnd k v hv []]
          rfl
        have h2 := outerFold_lookup (((((p :: tl).map (·.1)).sum : Nat)) : ℚ) k tl
          (fun q hq => hall q (List.mem_cons_of_mem p hq))
          (accClient (((((p :: tl).map (·.1)).sum : Nat)) : ℚ) [] p)
          (0 + v * ((p.1 : ℚ) / (((((p :: tl).map (·.1)).sum : Nat)) : ℚ))) h1
        rw [h2]
        have h3 := weighted_sum_div (((((p :: tl).map (·.1)).sum : Nat)) : ℚ) k (p :: tl)
        simp only [List.map_cons, List.sum_cons] at h3
        simp only [List.map_cons, List.sum_cons]
        rw [← hkv, zero_add]
        rw [← h3]


/-- C8 witness: the spec's example — `[(10, {acc: 0.5}), (30, {acc: 0.9})]`
aggregates to `acc = 0.8`. -/
theorem C8_weighted_witness :
    alookup (fit_metrics_aggregation_fn
        [(10, [("acc", .num (1/2))]), (30, [("acc", .num (9/10))])]) "acc" =
      some (4/5) := by
  have h := C8_weighted_metric_aggregation.2.2.2
    [(10, [("acc", MetricValue.num (1/2))]), (30, [("acc", MetricValue.num (9/10))])]
    "acc" (by simp) (by decide)
    (by
      intro p hp
      simp only [List.mem_cons, List.not_mem_nil, or_false] at hp
      rcases hp with h | h <;> subst h <;>
        exact ⟨by decide, ⟨_, rfl⟩⟩)
  rw [h]
  norm_num [keyVal, mlookup, List.find?]


/-- Folding digits most-significant-last agrees with `Nat.ofDigits`. -/
theorem foldr_digits_ofDigits :
    ∀ (ds : List Nat), (∀ d ∈ ds, d < 10) →
      List.foldr (fun c a => 10 * a + (c.toNat - 48)) 0 (ds.map dch) =
        Nat.ofDigits 10 ds := by
  intro ds
  induction ds with
  | nil => intro _; simp [Nat.ofDigits]
  | cons d tl ih =>
      intro h
      have hd : d < 10 := h d (List.mem_cons_self d tl)
      have htl := ih (fun x hx => h x (List.mem_cons_of_mem d hx))
      have hdch : (dch d).toNat - 48 = d := by
        interval_cases d <;> rfl
      simp only [List.map_cons, List.foldr_cons, htl, hdch, Nat.ofDigits_cons]
      ring

/-- Parsing the decimal representation returns the number
(Python `int(str(n)) == n`). -/
theorem parseNat_decimalChars : ∀ n : Nat, parseNat (decimalChars n) = n := by
  intro n
  by_cases hn : n = 0
  · subst hn; rfl
  · unfold parseNat decimalChars
    rw [if_neg hn, List.map_reverse, List.foldl_reverse]
    rw [foldr_digits_ofDigits (Nat.digits 10 n)
      (fun d hd => Nat.digits_lt_base (by norm_num) hd)]
    exact Nat.ofDigits_digits 10 n

/-- Digit characters are never the extension dot. -/
theorem dch_ne_dot : ∀ d : Nat, d < 10 → dch d ≠ '.' := by
  intro d h
  interval_cases d <;> decide

/-- No character of a decimal representation is the extension dot. -/
theorem decimalChars_ne_dot : ∀ (n : Nat), ∀ c ∈ decimalChars n, c ≠ '.' := by
  intro n c hc
  unfold decimalChars at hc
  by_cases hn : n = 0
  · rw [if_pos hn] at hc
    simp at hc
    subst hc
    decide
  · rw [if_neg hn] at hc
    obtain ⟨d, hd, hdc⟩ := List.mem_map.mp hc
    rw [List.mem_reverse] at hd
    rw [← hdc]
    exact dch_ne_dot d (Nat.digits_lt_base (by norm_num) hd)

/-- `takeWhile` up to the first dot returns everything before it. -/
theorem takeWhile_until_dot :
    ∀ (l : List Char), (∀ c ∈ l, c ≠ '.') → ∀ (rest : List Char),
      (l ++ '.' :: rest).takeWhile (fun c => c ≠ '.') = l := by
  intro l
  induction l with
  | nil => intro _ rest; simp [List.takeWhile_cons]
  | cons c tl ih =>
      intro h rest
      have hc : c ≠ '.' := h c (List.mem_cons_self c tl)
      have ih' := ih (fun x hx => h x (List.mem_cons_of_mem c hx)) rest
      simp [List.takeWhile_cons, hc]
      simpa using ih'

/-- The sort key recovers the round number from the checkpoint file name
(`int("round_{n}.pt".stem.split("_")[1]) == n`). -/
theorem roundKey_fileName : ∀ n : Nat, roundKey (fileNameChars n) = n := by
  intro n
  have h1 : (fileNameChars n).dropWhile (fun c => c ≠ '_') =
      '_' :: (decimalChars n ++ ['.', 'p', 't']) := rfl
  unfold roundKey
  rw [h1]
  simp only [List.drop_succ_cons, List.drop_zero]
  rw [show ('.' :: 'p' :: 't' :: ([] : List Char)) = '.' :: ['p', 't'] from rfl]
  rw [takeWhile_until_dot (decimalChars n) (decimalChars_ne_dot n) ['p', 't']]
  exact parseNat_decimalChars n

/-- In a list sorted by round key, every element's key is at most the
last element's. -/
theorem sorted_le_getLast :
    ∀ (l : List (List Char)), List.Sorted keyLe l → ∀ (h : l ≠ []),
      ∀ x ∈ l, keyLe x (l.getLast h) := by
  intro l
  induction l with
  | nil => intro _ h; exact absurd rfl h
  | cons a tl ih =>
      intro hsort h x hx
      cases tl with
      | nil =>
          simp only [List.mem_singleton] at hx
          subst hx
          exact Nat.le_refl _
      | cons b tb =>
          have hne : (b :: tb) ≠ [] := by simp
          have hgl : (a :: b :: tb).getLast h = (b :: tb).getLast hne :=
            List.getLast_cons hne
          rcases List.mem_cons.mp hx with rfl | hx2
          · have hrel := (List.sorted_cons.mp hsort).1
            have hmem := List.getLast_mem hne
            rw [hgl]
            exact hrel _ hmem
          · rw [hgl]
            exact ih (List.sorted_cons.mp hsort).2 hne x hx2

/-- C9: `load_latest_checkpoint` returns `none` when no checkpoint file
exists, and otherwise the checkpoint of the numerically highest round; it
does so although the highest round's file name can be lexicographically
smallest (`round_10.pt` < `round_2.pt` as strings, third conjunct). -/
theorem C9_load_latest_numeric_max :
    load_latest_checkpoint [] = none ∧
    (∀ (rounds : List Nat) (m : Nat), m ∈ rounds → (∀ r ∈ rounds, r ≤ m) →
      load_latest_checkpoint rounds = some (fileNameChars m)) ∧
    fileNameChars 10 < fileNameChars 2 := by
  have h10 : fileNameChars 10 = ['r', 'o', 'u', 'n', 'd', '_', '1', '0', '.', 'p', 't'] := by
    simp [fileNameChars, decimalChars, dch]
  have h2 : fileNameChars 2 = ['r', 'o', 'u', 'n', 'd', '_', '2', '.', 'p', 't'] := by
    simp [fileNameChars, decimalChars, dch]
  refine ⟨rfl, ?_, by rw [h10, h2]; decide⟩
  intro rounds m hm hmax
  unfold load_latest_checkpoint
  have hperm := List.perm_insertionSort keyLe (rounds.map fileNameChars)
  have hsorted := List.sorted_insertionSort keyLe (rounds.map fileNameChars)
  have hsne : List.insertionSort keyLe (rounds.map fileNameChars) ≠ [] := by
    intro h
    rw [h] at hperm
    have := hperm.symm.eq_nil
    rw [List.map_eq_nil_iff] at this
    rw [this] at hm
    exact absurd hm (List.not_mem_nil m)
  rw [List.getLast?_eq_getLast _ hsne]
  have hlast_mem := List.getLast_mem hsne
  have hlast_l := (hperm.mem_iff).mp hlast_mem
  obtain ⟨r0, hr0, hr0eq⟩ := List.mem_map.mp hlast_l
  have hmem_m : fileNameChars m ∈ List.insertionSort keyLe (rounds.map fileNameChars) :=
    (hperm.mem_iff).mpr (List.mem_map_of_mem fileNameChars hm)
  have hle := sorted_le_getLast _ hsorted hsne (fileNameChars m) hmem_m
  have h1 : m ≤ roundKey ((List.insertionSort keyLe (rounds.map fileNameChars)).getLast hsne) := by
    simpa [keyLe, roundKey_fileName] using hle
  have h2 : roundKey ((List.insertionSort keyLe (rounds.map fileNameChars)).getLast hsne) = r0 := by
    rw [← hr0eq, roundKey_fileName]
  have h3 : r0 ≤ m := hmax r0 hr0
  have hr0m : r0 = m := le_antisymm h3 (by omega)
  rw [← hr0eq, hr0m]

/-- C9 witness: on rounds `{1, 2, 10}` the latest checkpoint is round
10's file, not round 2's. -/
theorem C9_load_latest_witness :
    load_latest_checkpoint [1, 2, 10] = some (fileNameChars 10) :=
  C9_load_latest_numeric_max.2.1 [1, 2, 10] 10 (by decide) (by decide)

end FlowerTestbed
